import Mathlib

/-!
Verification of the jamf-mcp-server bridging layer.

This file gives a shallow embedding, in Lean 4, of the Python code in
`jamf-bedrock-agent/agent/jamf_inline_agent.py` and
`jamf-bedrock-agent/lambda/slack_handler.py`, and proves (or refutes)
the behavioural properties stated in the repository specification.

Conventions of the embedding:
* Python strings are Lean `String`s; `dict`s used as string-keyed records are
  association lists `List (String × _)` with Python `dict.get(k, default)`
  modelled by `dget`.
* Code that can raise is modelled with `Except PyErr _`; an uncaught Python
  exception is `Except.error`.
* External side effects (DynamoDB reads/writes, Slack Web-API calls, agent
  runtime calls, `asyncio.create_task`, `logger.error`/`logger.warning`) are
  recorded in an ordered `List Effect` returned alongside the result.
* External collaborators (the `hmac`/`hashlib` digest, `json.loads`,
  `urllib.parse.parse_qs`, the DynamoDB table's behaviour on this call, the
  Slack client's returned message timestamp, and the agent runtime's reply)
  are parameters, bundled in the structure `Deps`.
* `time.time()` is modelled at whole-second granularity as an integer
  `now : Int`; the staleness check `abs(time.time() - int(timestamp)) > 300`
  is exercised by the claims only at integral second offsets (300 vs 301).
-/

/-- Python exception kinds that the embedded code can raise. -/
inductive PyErr where
  | valueError
  | keyError (key : String)
  | attributeError
  | notImplementedError (msg : String)
  deriving DecidableEq, Repr

/-- ASCII whitespace stripped by Python `str.strip()` (the embedding is
ASCII-only; Python additionally strips some Unicode spaces). -/
def pyIsSpace (c : Char) : Bool :=
  c == ' ' || c == '\t' || c == '\n' || c == '\x0d' || c == '\x0b' || c == '\x0c'

/-- Python `str.strip()`: remove leading and trailing whitespace. -/
def pyStrip (s : String) : String :=
  ⟨((s.toList.dropWhile pyIsSpace).reverse.dropWhile pyIsSpace).reverse⟩

/-- Python `str.lower()` (ASCII-only model). -/
def pyLower (s : String) : String :=
  ⟨s.toList.map Char.toLower⟩

/-- Digit run accepted by Python `int()` after the optional sign: a nonempty
sequence of decimal digits, allowing single underscores between digits. -/
def digitsUnd : List Char → Bool
  | [] => false
  | [c] => c.isDigit
  | c :: '_' :: rest => c.isDigit && digitsUnd rest
  | c :: rest => c.isDigit && digitsUnd rest

/-- Numeric value of such a digit run (underscores skipped). -/
def digitsVal (l : List Char) : Nat :=
  l.foldl (fun acc c => if c == '_' then acc else acc * 10 + (c.toNat - 48)) 0

/-- Python `int(s)` for a decimal string: strips surrounding whitespace,
accepts an optional sign, and requires a digit run; `none` models the
`ValueError` that `int` raises otherwise (so in particular on `""`). -/
def parseIntPy (s : String) : Option Int :=
  let l := (((s.toList.dropWhile pyIsSpace).reverse.dropWhile pyIsSpace).reverse)
  match l with
  | '+' :: rest => if digitsUnd rest then some (digitsVal rest : Int) else none
  | '-' :: rest => if digitsUnd rest then some (-(digitsVal rest : Int)) else none
  | rest => if digitsUnd rest then some (digitsVal rest : Int) else none

/-- Python `d.get(k, default)` on a string-keyed dict. -/
def dget (d : List (String × String)) (k default : String) : String :=
  match d.lookup k with
  | some v => v
  | none => default

/-- Python `needle in hay` for strings: substring test. -/
def strContains (hay needle : String) : Bool :=
  decide (needle.toList <:+: hay.toList)

/-- Python `abs` on the (integer-modelled) time difference. -/
def pyAbs (q : Int) : Int := if q < 0 then -q else q

deriving instance DecidableEq for Except

/-- Python dict insertion `d[k] = v`: replace in place if the key exists,
else append (Python dicts preserve insertion order). -/
def dictInsert {α : Type} (d : List (String × α)) (k : String) (v : α) :
    List (String × α) :=
  if (d.lookup k).isSome then
    d.map (fun p => if p.1 == k then (k, v) else p)
  else
    d ++ [(k, v)]

/-- Build a Python dict from a sequence of insertions. -/
def dictOfList {α : Type} (l : List (String × α)) : List (String × α) :=
  l.foldl (fun d p => dictInsert d p.1 p.2) []

/-! ## Tool Bridge: `JamfMCPActionGroup` (jamf_inline_agent.py) -/

/-- A `call_tool` request sent to the MCP server over the established
transport: tool name and keyword arguments. -/
structure MCPCall where
  name : String
  args : List (String × String)
  deriving DecidableEq, Repr

/-- Observable steps of `JamfMCPActionGroup.initialize`: the stdio transport
handshake (`_connect_stdio_mcp`) and the discovery call
(`session.list_tools()` inside `_discover_tools`). -/
inductive BridgeEffect where
  | stdioHandshake
  | listTools
  deriving DecidableEq, Repr

/-- `JamfMCPActionGroup._connect_http_mcp`: unconditionally raises
`NotImplementedError("HTTP MCP connection not yet implemented")`. -/
def connect_http_mcp : Except PyErr Unit :=
  .error (.notImplementedError "HTTP MCP connection not yet implemented")

/-- `JamfMCPActionGroup.initialize`, as a function of
`os.environ.get("ENVIRONMENT")` and of the tool list the MCP server would
report.  Returns the resulting `available_tools` dict (name ↦ description)
or the raised exception, together with the transport/discovery effects that
were performed.  In production mode `_connect_http_mcp` raises before
`_discover_tools` runs, so no effect is recorded; otherwise the stdio
handshake happens, then the single discovery call populates the dict. -/
def JamfMCPActionGroup_init (env : Option String)
    (providerTools : List (String × String)) :
    Except PyErr (List (String × String)) × List BridgeEffect :=
  if env = some "production" then
    match connect_http_mcp with
    | .error e => (.error e, [])
    | .ok _ => (.ok [], [])
  else
    (.ok (dictOfList providerTools), [.stdioHandshake, .listTools])

/-- A wrapper produced by `create_tool_functions`: the `__name__` and
`__doc__` set on the generated function object. -/
structure ToolWrapper where
  fname : String
  fdoc : String
  deriving DecidableEq, Repr

/-- `JamfMCPActionGroup.create_tool_functions`.  The loop
`for tool_name, tool_spec in self.available_tools.items():` defines one
`async def tool_function(**kwargs)` per tool and sets its `__name__` and
`__doc__` from the loop variables.  The function *body* refers to the free
variable `tool_name`, which Python closures capture by reference (late
binding): every generated function shares the single `tool_name` cell of the
enclosing call frame.  We therefore return the list of wrappers together
with the value that cell holds once the loop has finished — the last key
iterated — which is the value every wrapper will read when it is called. -/
def create_tool_functions (available_tools : List (String × String)) :
    List ToolWrapper × Option String :=
  (available_tools.map (fun p => ⟨p.1, p.2⟩),
   (available_tools.map Prod.fst).getLast?)

/-- Body of the generated `tool_function`:
`result = await self.mcp_session.call_tool(tool_name, kwargs)` — the
`call_tool` request it issues names the tool that the shared `tool_name`
variable designates at call time, not the wrapper's own `__name__`. -/
def callWrapper (toolNameAtCallTime : String) (kwargs : List (String × String)) :
    MCPCall :=
  ⟨toolNameAtCallTime, kwargs⟩

/-- Calling the `i`-th wrapper returned by `create_tool_functions` after the
defining loop has completed: the shared `tool_name` cell holds the last key,
so that is the name sent in the `call_tool` request, whichever wrapper is
called. -/
def invokeGeneratedWrapper (available_tools : List (String × String)) (i : Nat)
    (kwargs : List (String × String)) : Option MCPCall :=
  let ws := (create_tool_functions available_tools).1
  let cell := (create_tool_functions available_tools).2
  if i < ws.length then some (callWrapper (cell.getD "") kwargs) else none

/-- Failure of a tool invocation routed through the bridge. -/
inductive InvokeError where
  | notFound
  deriving DecidableEq, Repr

/-- Modelled from the spec: the dispatch of a tool invocation *by name* to
one of the generated wrappers is performed by the external InlineAgent
runtime, which is not part of this repository; per the spec ("invoking an
unknown name fails with a NotFound error"), an invocation resolves to the
wrapper whose `__name__` equals the requested name, and an unknown name is a
NotFound failure.  The wrapper table itself and the behaviour of a resolved
wrapper are taken from `create_tool_functions` above.  `providerContent` is
the `content` list of the MCP result; the wrapper returns
`result.content[0].text if result.content else ""`.  The second component
records every `call_tool` request sent over the transport. -/
def invokeTool (providerContent : List String)
    (available_tools : List (String × String)) (name : String)
    (kwargs : List (String × String)) :
    Except InvokeError String × List MCPCall :=
  let ws := (create_tool_functions available_tools).1
  let cell := (create_tool_functions available_tools).2
  match ws.find? (fun w => w.fname == name) with
  | none => (.error .notFound, [])
  | some _ => (.ok (providerContent.headD ""), [callWrapper (cell.getD "") kwargs])

/-! ## Inbound Gateway and Session Keeper (slack_handler.py) -/

/-- External side effects performed by the Lambda handler code, in order. -/
inductive Effect where
  | sessionGet (sid : String)
  | sessionUpdate (sid : String)
  | sessionPut (sid : String)
  | logError (msg : String)
  | slackPost (channel text : String)
  | slackUpdate (channel ts text : String)
  | agentProcess (text sid : String)
  | agentStream (text sid : String)
  | createTask
  deriving DecidableEq, Repr

/-- Behaviour of `sessions_table.get_item` on this call: an item is found,
no item is found, or the call raises (DynamoDB unavailable). -/
inductive DbGet where
  | found
  | absent
  | raiseErr (msg : String)
  deriving DecidableEq, Repr

/-- Behaviour of the subsequent `update_item`/`put_item` on this call. -/
inductive DbWrite where
  | ok
  | raiseErr (msg : String)
  deriving DecidableEq, Repr

/-- `get_or_create_session(user_id, channel_id)`.  The session id is computed
up front as `f"{user_id}_{channel_id}"`.  The whole DynamoDB interaction is
wrapped in `try/except Exception`: on success the item is touched (found) or
created (absent); on any exception the error is logged
(`logger.error(f"Session management error: {e}")`) and the same derived id is
returned.  Effects record the attempted store calls in order. -/
def get_or_create_session (g : DbGet) (w : DbWrite) (user_id channel_id : String) :
    String × List Effect :=
  let session_id := user_id ++ "_" ++ channel_id
  match g with
  | .raiseErr m =>
      (session_id, [.sessionGet session_id,
                    .logError ("Session management error: " ++ m)])
  | .found =>
      match w with
      | .ok => (session_id, [.sessionGet session_id, .sessionUpdate session_id])
      | .raiseErr m =>
          (session_id, [.sessionGet session_id, .sessionUpdate session_id,
                        .logError ("Session management error: " ++ m)])
  | .absent =>
      match w with
      | .ok => (session_id, [.sessionGet session_id, .sessionPut session_id])
      | .raiseErr m =>
          (session_id, [.sessionGet session_id, .sessionPut session_id,
                        .logError ("Session management error: " ++ m)])

/-- JSON value, as produced by `json.loads` and consumed by `json.dumps`.
Response bodies are kept at this structured level (the dict passed to
`json.dumps`), not as serialized text. -/
inductive JVal where
  | str (s : String)
  | num (n : Int)
  | bool (b : Bool)
  | null
  | arr (elems : List JVal)
  | obj (fields : List (String × JVal))

/-- Python `body_data.get(k)` on a parsed JSON object. -/
def jlookup (fields : List (String × JVal)) (k : String) : Option JVal :=
  fields.lookup k

/-- Python `v == "s"` where `v` came from `dict.get`: true exactly when the
value is present, is a string, and equals `s`. -/
def isStrEq (v : Option JVal) (s : String) : Bool :=
  match v with
  | some (.str t) => t == s
  | _ => false

/-- One chunk of the agent runtime's streaming response:
`chunk.get('type')` and `chunk.get('text', '')`. -/
structure Chunk where
  ctype : String
  text : String
  deriving Repr

/-- Result of `agent_system.process_request`: the `response` text and the
`trace['agentActions']` action names (`{}`/missing trace modelled as `[]`). -/
structure AgentResp where
  response : String
  agentActions : List String
  deriving Repr

/-- External collaborators of the handler, fixed for one inbound call. -/
structure Deps where
  /-- `SLACK_SIGNING_SECRET` -/
  secret : String
  /-- `hmac.new(key, msg, hashlib.sha256).hexdigest()` -/
  hmacHex : String → String → String
  /-- `time.time()` (integer-second model) -/
  now : Int
  /-- `json.loads` -/
  jsonLoads : String → Except PyErr JVal
  /-- `parse_slack_body` = `parse_qs` + flattening (external `urllib`) -/
  parseQs : String → List (String × String)
  /-- DynamoDB behaviour for this call -/
  dbGet : DbGet
  dbWrite : DbWrite
  /-- `ts` returned by the first `chat_postMessage` of the streaming path -/
  slackTs : String
  /-- outcome of `agent_system.process_request` (error = exception message) -/
  agentResult : Except String AgentResp
  /-- chunks yielded by `agent_system.process_request_streaming` -/
  stream : List Chunk

/-- The raw Lambda event: headers dict and raw body string. -/
structure LambdaEvent where
  headers : List (String × String)
  body : String

/-- `verify_slack_request(event)`.  Reads the two headers (defaulting to
`''`), then evaluates `abs(time.time() - int(timestamp)) > 60 * 5` — where
`int(timestamp)` raises `ValueError` on a non-decimal string, in particular
on a missing header — and finally compares
`'v0=' + hmac_sha256_hex(secret, f"v0:{timestamp}:{body}")` with the
signature header via `hmac.compare_digest` (a constant-time comparison,
modelled by its value: string equality). -/
def verify_slack_request (d : Deps) (e : LambdaEvent) : Except PyErr Bool :=
  let timestamp := dget e.headers "x-slack-request-timestamp" ""
  let signature := dget e.headers "x-slack-signature" ""
  match parseIntPy timestamp with
  | none => .error .valueError
  | some ts =>
    if pyAbs (d.now - ts) > 60 * 5 then
      .ok false
    else
      let sig_basestring := "v0:" ++ timestamp ++ ":" ++ e.body
      let my_signature := "v0=" ++ d.hmacHex d.secret sig_basestring
      .ok (my_signature == signature)

/-- Help text returned by `/jamf` with empty remaining text. -/
def helpTextEmpty : String :=
  "👋 Hi! I\x27m your Jamf assistant. Here\x27s how to use me:\n\n" ++
  "• `/jamf find devices in conference room` - Search for devices\n" ++
  "• `/jamf show device ABC123` - Get device details\n" ++
  "• `/jamf update inventory for device 42` - Force inventory update\n" ++
  "• `/jamf help` - Show this help message\n\n" ++
  "I can help you manage Apple devices through natural language!"

/-- Help text returned by `/jamf help`. -/
def helpTextHelp : String :=
  "🔧 *Jamf Assistant Commands*\n\n" ++
  "*Device Search:*\n" ++
  "• Find devices by name, serial, user, or location\n" ++
  "• Example: `/jamf find MacBooks in engineering`\n\n" ++
  "*Device Details:*\n" ++
  "• Get detailed information about a device\n" ++
  "• Example: `/jamf show details for serial ABC123`\n\n" ++
  "*Device Management:*\n" ++
  "• Update inventory: `/jamf update inventory for device 42`\n" ++
  "• Execute policies: `/jamf run policy \"Update Software\" on device 42`\n\n" ++
  "*Reports:*\n" ++
  "• Storage: `/jamf show devices with low storage`\n" ++
  "• Compliance: `/jamf check compliance status`\n" ++
  "• OS versions: `/jamf show OS version distribution`"

/-- A Slack block produced by `format_response_blocks`. -/
inductive Block where
  | sect (text : String)
  | context (text : String)
  deriving DecidableEq, Repr

/-- `format_response_blocks(response)`: one mrkdwn section with the response
text, plus a context block listing the tools used when the trace carries
agent actions. -/
def format_response_blocks (r : AgentResp) : List Block :=
  let blocks := [Block.sect r.response]
  let tools_used := r.agentActions.map (fun n => "• " ++ n)
  if tools_used = [] then blocks
  else blocks ++ [Block.context ("_Tools used: " ++ String.intercalate ", " tools_used ++ "_")]

/-- The dict a slash-command path returns to Slack:
`response_type`, `text`, and optionally `blocks`. -/
structure SlashResp where
  response_type : String
  text : String
  blocks : Option (List Block)

/-- `process_slash_command(command_data)`.  Always resolves the session
first; for `/jamf` with empty stripped text or (case-insensitively) `help`
it returns one of the two static help texts; otherwise it posts an
acknowledgment, calls the agent, and formats the result, catching any agent
exception into a logged, user-visible error reply.  Slack posts are modelled
as never raising. -/
def process_slash_command (d : Deps) (command_data : List (String × String)) :
    SlashResp × List Effect :=
  let channel_id := dget command_data "channel_id" ""
  let command := dget command_data "command" ""
  let text := pyStrip (dget command_data "text" "")
  let sess := get_or_create_session d.dbGet d.dbWrite
    (dget command_data "user_id" "") channel_id
  if command = "/jamf" then
    if text = "" then
      (⟨"ephemeral", helpTextEmpty, none⟩, sess.2)
    else if pyLower text = "help" then
      (⟨"ephemeral", helpTextHelp, none⟩, sess.2)
    else
      let effs := sess.2 ++
        [.slackPost channel_id ("🤔 Processing: _" ++ text ++ "_"),
         .agentProcess text sess.1]
      match d.agentResult with
      | .ok resp =>
          (⟨"in_channel", resp.response, some (format_response_blocks resp)⟩, effs)
      | .error msg =>
          (⟨"ephemeral", "❌ Error processing request: " ++ msg, none⟩,
           effs ++ [.logError ("Error processing command: " ++ msg)])
  else
    (⟨"ephemeral", "Unknown command", none⟩, sess.2)

/-- A Slack event payload: `event` object fields used by `process_event`
(`'bot_id' not in event` is modelled by `bot_id = none`). -/
structure SlackEvent where
  etype : String
  user : String
  channel : String
  text : String
  channel_type : Option String
  bot_id : Option String

/-- The event-callback envelope: the nested `event` and
`authorizations[0].user_id` (defaults collapsed into a plain string). -/
structure EventData where
  event : SlackEvent
  authUserId : String

/-- Accumulator of the direct-message streaming loop in `process_event`:
`message_ts`, the accumulated `chunks`, and the Slack calls made so far. -/
structure DMState where
  message_ts : Option String
  chunks : List String
  calls : List Effect

/-- One iteration of
`async for chunk in agent_system.process_request_streaming(...)`:
a `content` chunk is appended, and every time `len(chunks) % 5 == 0` the
joined text is either posted (first time, remembering the returned `ts`) or
edited in place. -/
def dmStep (channel ts0 : String) (st : DMState) (c : Chunk) : DMState :=
  if c.ctype = "content" then
    let chunks := st.chunks ++ [c.text]
    if chunks.length % 5 = 0 then
      let full_text := String.join chunks
      match st.message_ts with
      | some ts =>
          ⟨some ts, chunks, st.calls ++ [.slackUpdate channel ts full_text]⟩
      | none =>
          ⟨some ts0, chunks, st.calls ++ [.slackPost channel full_text]⟩
    else
      ⟨st.message_ts, chunks, st.calls⟩
  else
    st

/-- The final update after the stream is exhausted: if any content
accumulated, edit the message (or post it, if fewer than 5 chunks ever
arrived) with the full joined text. -/
def dmFinish (channel : String) (st : DMState) : List Effect :=
  if st.chunks = [] then st.calls
  else
    let full_text := String.join st.chunks
    match st.message_ts with
    | some ts => st.calls ++ [.slackUpdate channel ts full_text]
    | none => st.calls ++ [.slackPost channel full_text]

/-- Slack calls made by the whole streaming loop of the direct-message path,
for a given stream of chunks. -/
def dmStreamEffects (channel ts0 : String) (stream : List Chunk) : List Effect :=
  dmFinish channel (stream.foldl (dmStep channel ts0) ⟨none, [], []⟩)

/-- `process_event(event_data)`.  `app_mention` events strip the bot mention
and use the blocking dispatcher, posting once; `message` events in an `im`
channel that are not bot messages use the streaming relay with the
batching-by-5 loop above.  Anything else is ignored.  Returns the ordered
effects performed. -/
def process_event (d : Deps) (ed : EventData) : List Effect :=
  let ev := ed.event
  if ev.etype = "app_mention" then
    let text := pyStrip ((ev.text).replace ("<@" ++ ed.authUserId ++ ">") "")
    if text = "" then []
    else
      let sess := get_or_create_session d.dbGet d.dbWrite ev.user ev.channel
      sess.2 ++ [.slackPost ev.channel "🤔 Thinking...", .agentProcess text sess.1] ++
      (match d.agentResult with
       | .ok resp => [.slackPost ev.channel resp.response]
       | .error msg =>
           [.logError ("Error processing event: " ++ msg),
            .slackPost ev.channel ("❌ Sorry, I encountered an error: " ++ msg)])
  else if ev.etype = "message" ∧ ev.channel_type = some "im" then
    if ev.bot_id = none then
      if ev.text = "" then []
      else
        let sess := get_or_create_session d.dbGet d.dbWrite ev.user ev.channel
        sess.2 ++ [.agentStream ev.text sess.1] ++
        dmStreamEffects ev.channel d.slackTs d.stream
    else []
  else []

/-- An API-Gateway response: status code, structured JSON body, and the
response headers when the code sets any. -/
structure HttpResponse where
  statusCode : Nat
  body : JVal
  rheaders : List (String × String)

/-- `json.dumps`-shape of a `Block`, as built in `format_response_blocks`. -/
def jvalOfBlock : Block → JVal
  | .sect t =>
      .obj [("type", .str "section"),
            ("text", .obj [("type", .str "mrkdwn"), ("text", .str t)])]
  | .context t =>
      .obj [("type", .str "context"),
            ("elements", .arr [.obj [("type", .str "mrkdwn"), ("text", .str t)]])]

/-- The dict a slash-command response is serialized from. -/
def jvalOfSlashResp (r : SlashResp) : JVal :=
  .obj ([("response_type", .str r.response_type), ("text", .str r.text)] ++
    (match r.blocks with
     | some bs => [("blocks", .arr (bs.map jvalOfBlock))]
     | none => []))

/-- `lambda_handler(event, context)`.  Verifies the request (propagating any
exception from `int(timestamp)`), answers 401 on failed verification,
branches on the content type: JSON bodies are parsed (a `json.loads` failure
propagates; a non-object body makes `.get` raise `AttributeError`), handling
`url_verification` (echo the challenge; a missing `challenge` key raises
`KeyError`) and `event_callback` (schedule `process_event` as a background
task and acknowledge); form-encoded bodies run the slash-command path
synchronously; anything else — including a JSON body of an unrecognized
type, which falls through both inner `if`s — gets a 400. -/
def lambda_handler (d : Deps) (e : LambdaEvent) :
    Except PyErr (HttpResponse × List Effect) :=
  match verify_slack_request d e with
  | .error err => .error err
  | .ok false =>
      .ok (⟨401, .obj [("error", .str "Unauthorized")], []⟩, [])
  | .ok true =>
    let content_type := dget e.headers "content-type" ""
    if strContains content_type "application/json" then
      match d.jsonLoads e.body with
      | .error err => .error err
      | .ok (.obj fields) =>
          if isStrEq (jlookup fields "type") "url_verification" then
            match jlookup fields "challenge" with
            | some c => .ok (⟨200, .obj [("challenge", c)], []⟩, [])
            | none => .error (.keyError "challenge")
          else if isStrEq (jlookup fields "type") "event_callback" then
            .ok (⟨200, .obj [("status", .str "ok")], []⟩, [.createTask])
          else
            .ok (⟨400, .obj [("error", .str "Bad request")], []⟩, [])
      | .ok _ => .error .attributeError
    else if strContains content_type "application/x-www-form-urlencoded" then
      let res := process_slash_command d (d.parseQs e.body)
      .ok (⟨200, jvalOfSlashResp res.1, [("Content-Type", "application/json")]⟩,
           res.2)
    else
      .ok (⟨400, .obj [("error", .str "Bad request")], []⟩, [])

/-! ## Concurrency model for `JamfAgentSystem.initialize`

`JamfAgentSystem.initialize` runs under Python's cooperative `asyncio`
scheduler: code between `await` points is atomic, and the task may be
suspended at each `await`.  Its control points are:

* `ready`: entry; executes `if self.initialized: return` and, when the flag
  is clear, proceeds into `await self.mcp_action_group.initialize()`, whose
  first awaits are inside `_connect_stdio_mcp` — so the task suspends with
  the flag still clear and the connection not yet made;
* `awaitConnect`: the stdio connect/handshake completes (one transport
  handshake performed), then suspends at the `list_tools()` await inside
  `_discover_tools`;
* `awaitDiscover`: the discovery call completes (one discovery performed),
  the agents are built, and only now `self.initialized = True` is set.

`process_request` triggers exactly this code via
`if not self.initialized: await self.initialize()`.
-/

/-- Program counter of one task running `JamfAgentSystem.initialize`. -/
inductive Pc where
  | ready
  | awaitConnect
  | awaitDiscover
  | done
  deriving DecidableEq, Repr

/-- Shared state of the singleton `JamfAgentSystem`, plus counters of the
transport handshakes and discovery calls performed so far. -/
structure SysState where
  initialized : Bool
  handshakes : Nat
  discoveries : Nat
  deriving DecidableEq, Repr

/-- One atomic segment (up to the next `await`) of `initialize`. -/
def stepInit (s : SysState) (pc : Pc) : SysState × Pc :=
  match pc with
  | .ready => if s.initialized then (s, .done) else (s, .awaitConnect)
  | .awaitConnect => ({ s with handshakes := s.handshakes + 1 }, .awaitDiscover)
  | .awaitDiscover =>
      ({ s with discoveries := s.discoveries + 1, initialized := true }, .done)
  | .done => (s, .done)

/-- Run two tasks, each executing `initialize`, under a schedule: `false`
steps task A, `true` steps task B. -/
def runSched (s : SysState) (p0 p1 : Pc) : List Bool → SysState × Pc × Pc
  | [] => (s, p0, p1)
  | b :: rest =>
    if b then
      let r := stepInit s p1
      runSched r.1 p0 r.2 rest
    else
      let r := stepInit s p0
      runSched r.1 r.2 p1 rest

/-! ## Derived accessors and concrete instances used by the theorems -/

/-- The `x-slack-request-timestamp` header value (default `''`). -/
def tsHeader (e : LambdaEvent) : String :=
  dget e.headers "x-slack-request-timestamp" ""

/-- The `x-slack-signature` header value (default `''`). -/
def sigHeader (e : LambdaEvent) : String :=
  dget e.headers "x-slack-signature" ""

/-- The signature the handler computes:
`'v0=' + hmac_sha256_hex(secret, f"v0:{timestamp}:{body}")`. -/
def expectedSig (d : Deps) (e : LambdaEvent) : String :=
  "v0=" ++ d.hmacHex d.secret ("v0:" ++ tsHeader e ++ ":" ++ e.body)

/-- Slack Web-API calls among a list of effects. -/
def isSlackCall : Effect → Bool
  | .slackPost _ _ => true
  | .slackUpdate _ _ _ => true
  | _ => false

def slackCalls (l : List Effect) : List Effect := l.filter isSlackCall

/-- Agent-runtime calls (the only path into the Tool Bridge) among effects. -/
def isAgentCall : Effect → Bool
  | .agentProcess _ _ => true
  | .agentStream _ _ => true
  | _ => false

/-- A fixed stand-in for the external HMAC-SHA256 hex digest. -/
def hmacFix : String → String → String := fun _ _ => "MAC"

/-- Concrete collaborators used by witness instantiations. -/
def d0 : Deps :=
  { secret := "s", hmacHex := hmacFix, now := 0,
    jsonLoads := fun _ => .error .valueError, parseQs := fun _ => [],
    dbGet := .absent, dbWrite := .ok, slackTs := "1700000000.1",
    agentResult := .error "boom", stream := [] }

/-- Collaborators whose `json.loads` yields a `url_verification` payload. -/
def d1 : Deps :=
  { d0 with jsonLoads := fun _ =>
      Except.ok (JVal.obj [("type", .str "url_verification"), ("challenge", .str "abc123")]) }

def eGood : LambdaEvent :=
  ⟨[("x-slack-request-timestamp", "0"), ("x-slack-signature", "v0=MAC")], "B"⟩

def eStale : LambdaEvent :=
  ⟨[("x-slack-request-timestamp", "-301"), ("x-slack-signature", "v0=MAC")], "B"⟩

def eBadSig : LambdaEvent :=
  ⟨[("x-slack-request-timestamp", "0"), ("x-slack-signature", "v0=MAX")], "B"⟩

def eNoTs : LambdaEvent := ⟨[], "B"⟩

def eChal : LambdaEvent :=
  ⟨[("x-slack-request-timestamp", "0"), ("x-slack-signature", "v0=MAC"),
    ("content-type", "application/json")], "CHALLENGE_BODY"⟩

def cd0 : List (String × String) :=
  [("command", "/jamf"), ("text", "  HELP "), ("user_id", "U"), ("channel_id", "C")]

def streamTwelve : List Chunk :=
  [⟨"content", "a"⟩, ⟨"content", "b"⟩, ⟨"content", "c"⟩, ⟨"content", "d"⟩,
   ⟨"content", "e"⟩, ⟨"content", "f"⟩, ⟨"content", "g"⟩, ⟨"content", "h"⟩,
   ⟨"content", "i"⟩, ⟨"content", "j"⟩, ⟨"content", "k"⟩, ⟨"content", "l"⟩]

def dStream : Deps := { d0 with stream := streamTwelve }

/-! ## Helper lemmas -/

theorem slackCalls_session (g : DbGet) (w : DbWrite) (u c : String) :
    slackCalls (get_or_create_session g w u c).2 = [] := by
  cases g <;> cases w <;> rfl

theorem session_no_agentCall (g : DbGet) (w : DbWrite) (u c : String) :
    ∀ eff ∈ (get_or_create_session g w u c).2, isAgentCall eff = false := by
  cases g <;> cases w <;> intro eff h <;>
    simp only [get_or_create_session, List.mem_cons, List.not_mem_nil, or_false] at h <;>
    rcases h with rfl | rfl | rfl <;> rfl

/-! ## Claims -/

/-- C1: the claim that every wrapper produced by
`JamfMCPActionGroup.create_tool_functions` invokes `call_tool` with its own
`__name__` is FALSE on the code: the generated closures share the loop
variable `tool_name` (late binding), so once the loop has finished every
wrapper sends the *last* discovered tool's name.  Concretely, with the two
tools `searchDevices` and `getDeviceDetails` discovered in that order, the
wrapper whose `__name__` is `searchDevices` (index 0) issues a `call_tool`
request naming `getDeviceDetails`. -/
theorem create_tool_functions_late_binding :
    ((create_tool_functions (dictOfList
        [("searchDevices", "Search devices"), ("getDeviceDetails", "Device details")])).1.map
      ToolWrapper.fname = ["searchDevices", "getDeviceDetails"])
    ∧ invokeGeneratedWrapper (dictOfList
        [("searchDevices", "Search devices"), ("getDeviceDetails", "Device details")]) 0 []
        = some ⟨"getDeviceDetails", []⟩
    ∧ "searchDevices" ≠ "getDeviceDetails" := by
  decide

/-- C3: invoking a tool name that is not in the discovered
`available_tools` set fails with NotFound and sends no `call_tool` request
over the transport. -/
theorem invokeTool_unknown_notFound (providerContent : List String)
    (available_tools : List (String × String)) (name : String)
    (kwargs : List (String × String))
    (h : name ∉ available_tools.map Prod.fst) :
    invokeTool providerContent available_tools name kwargs =
      (.error .notFound, []) := by
  have hf : ((create_tool_functions available_tools).1).find?
      (fun w => w.fname == name) = none := by
    simp only [create_tool_functions]
    rw [List.find?_eq_none]
    intro w hw
    rw [List.mem_map] at hw
    obtain ⟨p, hp, rfl⟩ := hw
    simp only [beq_eq_false_iff_ne, ne_eq, Bool.not_eq_true, beq_iff_eq]
    intro hn
    exact h (hn ▸ List.mem_map_of_mem Prod.fst hp)
  simp only [invokeTool, hf]

/-- Witness for C3 at a concrete unknown name. -/
theorem invokeTool_unknown_notFound_witness :
    ("unknownTool" ∉ ([("searchDevices", "d")].map Prod.fst)) ∧
    invokeTool [] [("searchDevices", "d")] "unknownTool" [] =
      (.error .notFound, []) :=
  ⟨by decide, invokeTool_unknown_notFound [] [("searchDevices", "d")] "unknownTool" [] (by decide)⟩

/-- C4: the claim that concurrent first-time initialization performs exactly
one transport handshake and one discovery call is FALSE on the code:
`JamfAgentSystem.initialize` guards only with `if self.initialized: return`
and sets the flag *after* awaiting the MCP connect and discovery, with no
lock, so two tasks that both pass the check before either completes perform
two handshakes and two discoveries (first conjunct, under the interleaving
`[A, B, A, A, B, B]`).  Sequential re-initialization is idempotent (second
conjunct), so the defect is specific to concurrent interleaving. -/
theorem concurrent_initialize_double_handshake :
    (runSched ⟨false, 0, 0⟩ .ready .ready [false, true, false, false, true, true]).1 =
      ⟨true, 2, 2⟩ ∧
    (runSched ⟨false, 0, 0⟩ .ready .ready [false, false, false, true]).1 =
      ⟨true, 1, 1⟩ := by
  decide

/-- C6: `get_or_create_session` returns the deterministically derived
identifier `user_id + '_' + channel_id` on every code path — item found,
item absent, and storage failure (where it logs
`Session management error: ...` and still returns the same id) — so the
same pair never maps to two different identifiers. -/
theorem get_or_create_session_deterministic :
    (∀ (g : DbGet) (w : DbWrite) (u c : String),
      (get_or_create_session g w u c).1 = u ++ "_" ++ c) ∧
    (∀ (g g2 : DbGet) (w w2 : DbWrite) (u c : String),
      (get_or_create_session g w u c).1 = (get_or_create_session g2 w2 u c).1) ∧
    (∀ (m : String) (w : DbWrite) (u c : String),
      Effect.logError ("Session management error: " ++ m) ∈
        (get_or_create_session (.raiseErr m) w u c).2 ∧
      (get_or_create_session (.raiseErr m) w u c).1 = u ++ "_" ++ c) := by
  refine ⟨?_, ?_, ?_⟩
  · intro g w u c; cases g <;> cases w <;> rfl
  · intro g g2 w w2 u c; cases g <;> cases g2 <;> cases w <;> cases w2 <;> rfl
  · intro m w u c
    exact ⟨by simp [get_or_create_session], rfl⟩

/-- Witness for C6 at concrete inputs, including the failure path. -/
theorem get_or_create_session_deterministic_witness :
    (get_or_create_session .absent .ok "U1" "C9").1 = "U1" ++ "_" ++ "C9" ∧
    (get_or_create_session (.raiseErr "down") .ok "U1" "C9").1 = "U1" ++ "_" ++ "C9" :=
  ⟨get_or_create_session_deterministic.1 .absent .ok "U1" "C9",
   (get_or_create_session_deterministic.2.2 "down" .ok "U1" "C9").2⟩

/-- C8: with the environment-mode flag set to `production`,
`JamfMCPActionGroup.initialize` takes the `_connect_http_mcp` branch, which
raises `NotImplementedError("HTTP MCP connection not yet implemented")`
before `_discover_tools` ever runs: the result is that error with an empty
effect list, in particular no discovery call. -/
theorem production_initialize_fails_fast (env : Option String)
    (providerTools : List (String × String)) (h : env = some "production") :
    JamfMCPActionGroup_init env providerTools =
      (.error (.notImplementedError "HTTP MCP connection not yet implemented"), []) ∧
    BridgeEffect.listTools ∉ (JamfMCPActionGroup_init env providerTools).2 := by
  subst h
  exact ⟨rfl, by simp [JamfMCPActionGroup_init, connect_http_mcp]⟩

/-- Witness for C8 at the concrete production flag. -/
theorem production_initialize_fails_fast_witness :
    JamfMCPActionGroup_init (some "production") [("searchDevices", "d")] =
      (.error (.notImplementedError "HTTP MCP connection not yet implemented"), []) :=
  (production_initialize_fails_fast (some "production") [("searchDevices", "d")] rfl).1

/-- C2: `verify_slack_request` accepts (returns `True`) exactly when the
signature header equals `'v0='` plus the HMAC-SHA256 hex digest of
`v0:{timestamp}:{body}` under the signing secret and the timestamp is
within 300 seconds of `time.time()` (first conjunct, for any event whose
timestamp header parses as an integer); a request exactly 301 seconds old is
rejected (second conjunct); any signature differing from the expected one —
in particular by a single bit — is rejected (third conjunct); and whenever
verification returns `False`, `lambda_handler` answers 401 with body
`{"error": "Unauthorized"}` and performs no further processing: the effect
list is empty (fourth conjunct).  The constant-time property of
`hmac.compare_digest` is a timing property; its value behaviour is string
equality, which is what is modelled. -/
theorem verify_slack_request_spec :
    (∀ (d : Deps) (e : LambdaEvent) (ts : Int),
      parseIntPy (tsHeader e) = some ts →
      (verify_slack_request d e = .ok true ↔
        (sigHeader e = expectedSig d e ∧ pyAbs (d.now - ts) ≤ 300))) ∧
    (∀ (d : Deps) (e : LambdaEvent) (ts : Int),
      parseIntPy (tsHeader e) = some ts → d.now - ts = 301 →
      verify_slack_request d e = .ok false) ∧
    (∀ (d : Deps) (e : LambdaEvent), sigHeader e ≠ expectedSig d e →
      verify_slack_request d e ≠ .ok true) ∧
    (∀ (d : Deps) (e : LambdaEvent), verify_slack_request d e = .ok false →
      lambda_handler d e =
        .ok (⟨401, .obj [("error", .str "Unauthorized")], []⟩, [])) := by
  have hverify : ∀ (d : Deps) (e : LambdaEvent) (ts : Int),
      parseIntPy (tsHeader e) = some ts →
      verify_slack_request d e =
        (if pyAbs (d.now - ts) > 60 * 5 then .ok false
         else .ok (expectedSig d e == sigHeader e)) := by
    intro d e ts h
    have h' : parseIntPy (dget e.headers "x-slack-request-timestamp" "") = some ts := h
    simp only [verify_slack_request, h', expectedSig, sigHeader, tsHeader]
  have hverifyNone : ∀ (d : Deps) (e : LambdaEvent),
      parseIntPy (tsHeader e) = none →
      verify_slack_request d e = .error .valueError := by
    intro d e h
    have h' : parseIntPy (dget e.headers "x-slack-request-timestamp" "") = none := h
    simp only [verify_slack_request, h']
  refine ⟨?_, ?_, ?_, ?_⟩
  · intro d e ts h
    rw [hverify d e ts h]
    by_cases hc : pyAbs (d.now - ts) > 60 * 5
    · rw [if_pos hc]
      constructor
      · intro hfalse
        exact absurd (Except.ok.inj hfalse) Bool.false_ne_true
      · rintro ⟨-, hle⟩
        omega
    · rw [if_neg hc]
      constructor
      · intro hok
        have hq := Except.ok.inj hok
        rw [beq_iff_eq] at hq
        exact ⟨hq.symm, by omega⟩
      · rintro ⟨hsig, -⟩
        rw [hsig, beq_self_eq_true]
  · intro d e ts h h301
    rw [hverify d e ts h, if_pos (by rw [h301]; decide)]
  · intro d e hne hok
    rcases hts : parseIntPy (tsHeader e) with _ | ts
    · rw [hverifyNone d e hts] at hok
      exact absurd hok (by simp)
    · rw [hverify d e ts hts] at hok
      by_cases hc : pyAbs (d.now - ts) > 60 * 5
      · rw [if_pos hc] at hok
        exact absurd (Except.ok.inj hok) Bool.false_ne_true
      · rw [if_neg hc] at hok
        have hq := Except.ok.inj hok
        rw [beq_iff_eq] at hq
        exact hne hq.symm
  · intro d e hfalse
    unfold lambda_handler
    rw [hfalse]

/-- Witness for C2: a validly signed fresh request is accepted; the same
credentials 301 seconds old are rejected; a signature off by one character
is rejected; and the rejected request gets the 401 with no effects. -/
theorem verify_slack_request_spec_witness :
    verify_slack_request d0 eGood = .ok true ∧
    verify_slack_request d0 eStale = .ok false ∧
    verify_slack_request d0 eBadSig ≠ .ok true ∧
    lambda_handler d0 eBadSig =
      .ok (⟨401, .obj [("error", .str "Unauthorized")], []⟩, []) := by
  refine ⟨?_, ?_, ?_, ?_⟩
  · exact (verify_slack_request_spec.1 d0 eGood 0 (by decide)).mpr
      (by constructor <;> decide)
  · exact verify_slack_request_spec.2.1 d0 eStale (-301) (by decide) (by decide)
  · exact verify_slack_request_spec.2.2.1 d0 eBadSig (by decide)
  · exact verify_slack_request_spec.2.2.2 d0 eBadSig (by decide)

/-- C10: when the timestamp header is absent (so defaulted to `''`) or its
value is not a decimal integer string (modelled by `parseIntPy` = `none`,
i.e. a failing `int()` conversion), `verify_slack_request` raises an
uncaught `ValueError` at `int(timestamp)`, so `lambda_handler` terminates
exceptionally and returns none of the specified responses — neither the 401
rejection nor any 200/400 response. -/
theorem missing_timestamp_uncaught (d : Deps) (e : LambdaEvent)
    (h : parseIntPy (tsHeader e) = none) :
    verify_slack_request d e = .error .valueError ∧
    lambda_handler d e = .error .valueError ∧
    ∀ r, lambda_handler d e ≠ .ok r := by
  have hv : verify_slack_request d e = .error .valueError := by
    have h' : parseIntPy (dget e.headers "x-slack-request-timestamp" "") = none := h
    simp only [verify_slack_request, h']
  have hl : lambda_handler d e = .error .valueError := by
    unfold lambda_handler
    rw [hv]
  exact ⟨hv, hl, fun r hr => by rw [hl] at hr; exact absurd hr (by simp)⟩

/-- Witness for C10: an event with no headers at all. -/
theorem missing_timestamp_uncaught_witness :
    verify_slack_request d0 eNoTs = .error .valueError ∧
    lambda_handler d0 eNoTs = .error .valueError :=
  ⟨(missing_timestamp_uncaught d0 eNoTs (by decide)).1,
   (missing_timestamp_uncaught d0 eNoTs (by decide)).2.1⟩

/-- C7: a verified JSON call whose parsed payload has type
`url_verification` and carries a challenge value is answered 200 with body
`{"challenge": <the provided token>}`, with an empty effect list — no
session-store access and no dispatcher or agent interaction. -/
theorem url_verification_challenge_echo (d : Deps) (e : LambdaEvent)
    (fields : List (String × JVal)) (c : JVal)
    (hv : verify_slack_request d e = .ok true)
    (hct : strContains (dget e.headers "content-type" "") "application/json" = true)
    (hjson : d.jsonLoads e.body = .ok (.obj fields))
    (htype : isStrEq (jlookup fields "type") "url_verification" = true)
    (hch : jlookup fields "challenge" = some c) :
    lambda_handler d e = .ok (⟨200, .obj [("challenge", c)], []⟩, []) := by
  simp [lambda_handler, hv, hct, hjson, htype, hch]

/-- Witness for C7: the spec's example payload
`{"type":"url_verification","challenge":"abc123"}`. -/
theorem url_verification_challenge_echo_witness :
    lambda_handler d1 eChal =
      .ok (⟨200, .obj [("challenge", .str "abc123")], []⟩, []) :=
  url_verification_challenge_echo d1 eChal
    [("type", .str "url_verification"), ("challenge", .str "abc123")]
    (.str "abc123") (by decide) (by decide) rfl (by decide) rfl

/-- C9: a `/jamf` slash command whose stripped remaining text is empty or
(case-insensitively) `help` is answered with one of the two static help
texts as an ephemeral response; the only effects are the Session Keeper's
(the session is still resolved first), and in particular no agent-runtime
call — the sole path into the Tool Bridge — occurs. -/
theorem jamf_help_static (d : Deps) (cd : List (String × String))
    (hcmd : dget cd "command" "" = "/jamf")
    (hhelp : pyStrip (dget cd "text" "") = "" ∨
             pyLower (pyStrip (dget cd "text" "")) = "help") :
    (process_slash_command d cd).1.response_type = "ephemeral" ∧
    ((process_slash_command d cd).1.text = helpTextEmpty ∨
     (process_slash_command d cd).1.text = helpTextHelp) ∧
    (process_slash_command d cd).2 =
      (get_or_create_session d.dbGet d.dbWrite (dget cd "user_id" "")
        (dget cd "channel_id" "")).2 ∧
    (∀ eff ∈ (process_slash_command d cd).2, isAgentCall eff = false) := by
  by_cases ht : pyStrip (dget cd "text" "") = ""
  · have hpc : process_slash_command d cd =
        (⟨"ephemeral", helpTextEmpty, none⟩,
         (get_or_create_session d.dbGet d.dbWrite (dget cd "user_id" "")
           (dget cd "channel_id" "")).2) := by
      simp [process_slash_command, hcmd, ht]
    rw [hpc]
    exact ⟨rfl, Or.inl rfl, rfl, session_no_agentCall d.dbGet d.dbWrite _ _⟩
  · have hlow : pyLower (pyStrip (dget cd "text" "")) = "help" :=
      hhelp.resolve_left ht
    have hpc : process_slash_command d cd =
        (⟨"ephemeral", helpTextHelp, none⟩,
         (get_or_create_session d.dbGet d.dbWrite (dget cd "user_id" "")
           (dget cd "channel_id" "")).2) := by
      simp [process_slash_command, hcmd, ht, hlow]
    rw [hpc]
    exact ⟨rfl, Or.inr rfl, rfl, session_no_agentCall d.dbGet d.dbWrite _ _⟩

/-- Witness for C9: `/jamf` with text `"  HELP "` (whitespace and case). -/
theorem jamf_help_static_witness :
    (process_slash_command d0 cd0).1.response_type = "ephemeral" ∧
    ((process_slash_command d0 cd0).1.text = helpTextEmpty ∨
     (process_slash_command d0 cd0).1.text = helpTextHelp) :=
  ⟨(jamf_help_static d0 cd0 (by decide) (Or.inr (by decide))).1,
   (jamf_help_static d0 cd0 (by decide) (Or.inr (by decide))).2.1⟩

theorem slackCalls_append (a b : List Effect) :
    slackCalls (a ++ b) = slackCalls a ++ slackCalls b := by
  simp [slackCalls, List.filter_append]

/-- C5: for a direct-message event whose agent-runtime stream yields exactly
12 `content` chunks, the streaming path makes exactly three outgoing Slack
calls: an intermediate post after the 5th chunk, an intermediate update
after the 10th, and one final update whose text is the concatenation of all
12 chunk texts in order. -/
theorem dm_stream_batching (d : Deps) (user ch auth txt : String)
    (t1 t2 t3 t4 t5 t6 t7 t8 t9 t10 t11 t12 : String)
    (htext : txt ≠ "")
    (hstream : d.stream =
      [⟨"content", t1⟩, ⟨"content", t2⟩, ⟨"content", t3⟩, ⟨"content", t4⟩,
       ⟨"content", t5⟩, ⟨"content", t6⟩, ⟨"content", t7⟩, ⟨"content", t8⟩,
       ⟨"content", t9⟩, ⟨"content", t10⟩, ⟨"content", t11⟩, ⟨"content", t12⟩]) :
    slackCalls (process_event d ⟨⟨"message", user, ch, txt, some "im", none⟩, auth⟩) =
      [Effect.slackPost ch (String.join [t1, t2, t3, t4, t5]),
       Effect.slackUpdate ch d.slackTs
         (String.join [t1, t2, t3, t4, t5, t6, t7, t8, t9, t10]),
       Effect.slackUpdate ch d.slackTs
         (String.join [t1, t2, t3, t4, t5, t6, t7, t8, t9, t10, t11, t12])] := by
  have hpe : process_event d ⟨⟨"message", user, ch, txt, some "im", none⟩, auth⟩ =
      (get_or_create_session d.dbGet d.dbWrite user ch).2 ++
        [Effect.agentStream txt (get_or_create_session d.dbGet d.dbWrite user ch).1] ++
        dmStreamEffects ch d.slackTs d.stream := by
    unfold process_event
    dsimp only
    rw [if_neg (by decide), if_pos ⟨rfl, rfl⟩, if_pos rfl, if_neg htext]
  rw [hpe, hstream, slackCalls_append, slackCalls_append, slackCalls_session]
  simp [slackCalls, isSlackCall, dmStreamEffects, dmStep, dmFinish]

/-- Witness for C5: a 12-chunk stream of the one-letter texts a…l. -/
theorem dm_stream_batching_witness :
    slackCalls (process_event dStream
        ⟨⟨"message", "U", "C", "hi", some "im", none⟩, "B1"⟩) =
      [Effect.slackPost "C" (String.join ["a", "b", "c", "d", "e"]),
       Effect.slackUpdate "C" dStream.slackTs
         (String.join ["a", "b", "c", "d", "e", "f", "g", "h", "i", "j"]),
       Effect.slackUpdate "C" dStream.slackTs
         (String.join ["a", "b", "c", "d", "e", "f", "g", "h", "i", "j", "k", "l"])] :=
  dm_stream_batching dStream "U" "C" "B1" "hi"
    "a" "b" "c" "d" "e" "f" "g" "h" "i" "j" "k" "l" (by decide) rfl
